import Mathlib

/-!
# Verification of `great_expectations/dataset/sqlalchemy_dataset.py`

A shallow embedding of the SqlAlchemy dataset module: the column-map and
column-aggregate expectation wrappers, the individual expectations, and the
table-level row-count expectations, together with proofs about them.

Modelling conventions:

* A table cell is `Option ℚ` (`none` is SQL NULL).
* SQL conditions are three-valued (`TV`): comparisons with NULL yield
  `TV.n`; SQLAlchemy renders `column == None` / `column != None` as the
  two-valued `IS NULL` / `IS NOT NULL` tests.
* `SUM(CASE WHEN c THEN 1 ELSE 0 END)` counts rows whose condition is
  exactly true; over zero rows SQL `SUM` returns NULL (`none`).
* Python-level comparisons follow Python 2 ordering (the source targets
  Python 2/3 via `six` and `inspect.getargspec`): `None` sorts below every
  number and numbers sort below strings; `==` between a number and a string
  is `False`.
* Every call of `engine.execute` counts as one backend round trip; the
  evaluators return the outcome (or the raised error) together with the
  number of round trips performed.
* Python runtime errors are `EvalError`: `valueError` for explicit
  `raise ValueError`, `typeError` for arithmetic on `None`, `nameError`
  for reading a never-assigned local, `backendError` for an engine-side
  failure (such as querying a column the table does not have).
-/

namespace GE

/-- SQL three-valued truth values: true, false, null. -/
inductive TV
  | t
  | f
  | n
deriving DecidableEq, Repr

/-- Embed a Boolean as a (two-valued) SQL truth value. -/
def TV.ofBool (b : Bool) : TV := if b then .t else .f

/-- SQL `NOT`: null stays null. -/
def tvNot : TV → TV
  | .t => .f
  | .f => .t
  | .n => .n

/-- SQL `AND`: false dominates, otherwise null dominates. -/
def tvAnd : TV → TV → TV
  | .f, _ => .f
  | _, .f => .f
  | .n, _ => .n
  | _, .n => .n
  | .t, .t => .t

/-- SQL `a <= b`: null when either side is NULL. -/
def sqlLe (a b : Option ℚ) : TV :=
  match a, b with
  | some x, some y => .ofBool (x ≤ y)
  | _, _ => .n

/-- SQL `v IN (s)` for a set of non-NULL literals: null when `v` is NULL. -/
def sqlIn (v : Option ℚ) (s : List ℚ) : TV :=
  match v with
  | some x => .ofBool (s.contains x)
  | none => .n

/-- SQL `v IS NULL` (SQLAlchemy's rendering of `column == None`): two-valued. -/
def sqlIsNull (v : Option ℚ) : TV := .ofBool v.isNone

/-- SQL `v IS NOT NULL` (SQLAlchemy's rendering of `column != None`): two-valued. -/
def sqlIsNotNull (v : Option ℚ) : TV := .ofBool v.isSome

/-- Number of rows whose condition evaluates to exactly true. -/
def caseCount (vals : List (Option ℚ)) (cond : Option ℚ → TV) : ℕ :=
  (vals.filter (fun v => cond v == TV.t)).length

/-- `SUM(CASE WHEN cond THEN 1 ELSE 0 END)` over the rows: SQL `SUM` of zero
rows is NULL. -/
def sqlSumCase (vals : List (Option ℚ)) (cond : Option ℚ → TV) : Option ℤ :=
  if vals.isEmpty then none else some (caseCount vals cond)

/-- SQL `MAX(column)`: ignores NULLs; NULL when no non-NULL value exists. -/
def sqlMax (vals : List (Option ℚ)) : Option ℚ := (vals.filterMap id).max?

/-- SQL `MIN(column)`: ignores NULLs; NULL when no non-NULL value exists. -/
def sqlMin (vals : List (Option ℚ)) : Option ℚ := (vals.filterMap id).min?

/-- SQL `SUM(column)`: ignores NULLs; NULL when no non-NULL value exists. -/
def sqlSum (vals : List (Option ℚ)) : Option ℚ :=
  let xs := vals.filterMap id
  if xs.isEmpty then none else some xs.sum

/-- SQL `AVG(column)`: ignores NULLs; NULL when no non-NULL value exists. -/
def sqlAvg (vals : List (Option ℚ)) : Option ℚ :=
  let xs := vals.filterMap id
  if xs.isEmpty then none else some (xs.sum / xs.length)

/-- A Python scalar value as it appears in expectation arguments and results. -/
inductive PyVal
  | bool (b : Bool)
  | int (n : ℤ)
  | float (q : ℚ)
  | str (s : String)
deriving DecidableEq, Repr

/-- Python `bool(v)` truthiness on scalars. -/
def pyTruthy : PyVal → Bool
  | .bool b => b
  | .int n => n ≠ 0
  | .float q => q ≠ 0
  | .str s => s ≠ ""

/-- The numeric value of a Python scalar, when it is a number
(`bool` counts as a number: `True == 1`). -/
def pyNum : PyVal → Option ℚ
  | .bool b => some (if b then 1 else 0)
  | .int n => some (n : ℚ)
  | .float q => some q
  | .str _ => none

/-- Digit characters to the natural number they spell. -/
def digitsNat (cs : List Char) : ℕ :=
  cs.foldl (fun a c => 10 * a + (c.toNat - '0'.toNat)) 0

/-- The unsigned part of Python `float(str)` on plain decimal literals
(`"10"`, `"10.5"`, `"1."`, `".5"`); `none` when the literal is malformed. -/
def parseFloatUnsigned (cs : List Char) : Option ℚ :=
  match cs.splitOn '.' with
  | [ip] =>
      if ip ≠ [] ∧ ip.all Char.isDigit then some (digitsNat ip) else none
  | [ip, fp] =>
      if (ip ≠ [] ∨ fp ≠ []) ∧ ip.all Char.isDigit ∧ fp.all Char.isDigit then
        some ((digitsNat ip : ℚ) + (digitsNat fp : ℚ) / (10 : ℚ) ^ fp.length)
      else none
  | _ => none

/-- Python `float(str)` restricted to plain decimal literals with an optional
sign (scientific notation, `inf`, `nan` and surrounding whitespace are not
modelled): `none` when the conversion raises `ValueError`. -/
def parseFloat (s : String) : Option ℚ :=
  match s.toList with
  | '-' :: rest => (parseFloatUnsigned rest).map Neg.neg
  | '+' :: rest => parseFloatUnsigned rest
  | cs => parseFloatUnsigned cs

/-- Python `float(v)` on a scalar: `none` when the conversion raises. -/
def floatConv : PyVal → Option ℚ
  | .bool b => some (if b then 1 else 0)
  | .int n => some (n : ℚ)
  | .float q => some q
  | .str s => parseFloat s

/-- Python 2 `a > b` on optional numbers: `None` sorts below every number. -/
def pyGtOpt : Option ℚ → Option ℚ → Bool
  | none, _ => false
  | some _, none => true
  | some a, some b => a > b

/-- Python 2 `a <= b` on optional numbers: `None` sorts below every number. -/
def pyLeOpt : Option ℚ → Option ℚ → Bool
  | none, _ => true
  | some _, none => false
  | some a, some b => a ≤ b

/-- Python 2 `n >= v` for an integer and a scalar: numbers compare
numerically, and every number sorts below every string. -/
def pyGeIntVal (nv : ℤ) (v : PyVal) : Bool :=
  match pyNum v with
  | some q => (nv : ℚ) ≥ q
  | none => false

/-- Python 2 `n <= v` for an integer and a scalar. -/
def pyLeIntVal (nv : ℤ) (v : PyVal) : Bool :=
  match pyNum v with
  | some q => (nv : ℚ) ≤ q
  | none => true

/-- Python `n == v` for an integer and a scalar: a number never equals a
string. -/
def pyEqIntVal (nv : ℤ) (v : PyVal) : Bool :=
  match pyNum v with
  | some q => (nv : ℚ) = q
  | none => false

/-- A parsed `result_format` configuration: the verbosity string and the
optional `partial_unexpected_count` key. -/
structure ResultFormat where
  result_obj_format : String
  partial_unexpected_count : Option ℕ := none
deriving DecidableEq, Repr

/-- Runtime errors of the embedded code. `schemaError` belongs to the error
taxonomy of the design but is produced by none of the embedded functions. -/
inductive EvalError
  | valueError (msg : String)
  | typeError (msg : String)
  | nameError (msg : String)
  | schemaError (msg : String)
  | backendError (msg : String)
deriving DecidableEq, Repr

/-- One introspected column: its name and whether its reflected type is one
of the numeric SQLAlchemy type classes (source `_is_numeric_column`). -/
structure ColumnInfo where
  name : String
  numeric : Bool
deriving DecidableEq, Repr

/-- A dataset handle: the schema introspected at construction (which matches
the actual table), the table rows (each an association list from column name
to cell), and `default_expectation_args["result_format"]`. -/
structure Dataset where
  columns : List ColumnInfo
  rows : List (List (String × Option ℚ))
  default_result_format : ResultFormat

/-- The introspected column names. -/
def Dataset.colNames (d : Dataset) : List String := d.columns.map (·.name)

/-- A cell of one row; absent keys read as NULL. -/
def rowGet (row : List (String × Option ℚ)) (c : String) : Option ℚ :=
  match row.lookup c with
  | some v => v
  | none => none

/-- The column's values down the table. -/
def Dataset.colData (d : Dataset) (c : String) : List (Option ℚ) :=
  d.rows.map (fun r => rowGet r c)

/-- Source `_is_numeric_column`: scan the cached schema for a column of the
given name whose type is numeric. -/
def Dataset.is_numeric_column (d : Dataset) (c : String) : Bool :=
  d.columns.any (fun ci => ci.name = c && ci.numeric)

/-- `COUNT(*)` of the table. -/
def Dataset.element_count (d : Dataset) : ℤ := d.rows.length

/-- Rows whose cell in column `c` is NULL. -/
def Dataset.null_count (d : Dataset) (c : String) : ℕ :=
  caseCount (d.colData c) sqlIsNull

/-- Rows whose cell in column `c` satisfies the pushed-down condition. -/
def Dataset.unexpected_count (d : Dataset) (c : String) (cond : Option ℚ → TV) : ℕ :=
  caseCount (d.colData c) cond

/-- `element_count - null_count`. -/
def Dataset.nonnull_count (d : Dataset) (c : String) : ℤ :=
  d.element_count - d.null_count c

/-- Source lines 33-36 / 91-94: an explicit `result_format` argument is
parsed (`parse_result_format` of an already-structured configuration returns
it unchanged), otherwise the dataset-level default is used. -/
def resolve_result_format (d : Dataset) (arg : Option ResultFormat) : ResultFormat :=
  match arg with
  | some rf => rf
  | none => d.default_result_format

/-- Source lines 38-44 / 96-102: the sample bound is the
`partial_unexpected_count` key when present, else `None` (unbounded) for
`COMPLETE`, else 20. -/
def resolve_unexpected_count_limit (rf : ResultFormat) : Option ℕ :=
  match rf.partial_unexpected_count with
  | some k => some k
  | none => if rf.result_obj_format = "COMPLETE" then none else some 20

/-- SQL `LIMIT`: Python `None` means no limit. -/
def applyLimit (limit : Option ℕ) (xs : List (Option ℚ)) : List (Option ℚ) :=
  match limit with
  | none => xs
  | some k => xs.take k

/-- Modelled from the spec: `_calc_map_expectation_success` lives in the base
`DataSet` class, which is not under `src/`. Per spec section 4.2 step 6 and
section 8: with zero non-null rows success is vacuously true regardless of
`mostly`; otherwise with `mostly = None` success holds iff the unexpected
count (`nonnull_count - success_count`) is zero, and with `mostly = m`
success holds iff `success_count / nonnull_count >= m` (boundary
inclusive). -/
def calc_map_expectation_success (success_count nonnull_count : ℤ)
    (mostly : Option ℚ) : Bool :=
  if nonnull_count = 0 then true
  else
    match mostly with
    | none => nonnull_count - success_count = 0
    | some m => (success_count : ℚ) / (nonnull_count : ℚ) ≥ m

/-- The `result_obj` of a map-expectation outcome (spec section 4.1 field
list; the key set is what the claims consume). -/
structure MapResultObj where
  element_count : ℤ
  missing_count : ℤ
  missing_percent : Option ℚ
  unexpected_count : ℤ
  unexpected_percent : Option ℚ
  partial_unexpected_list : List (Option ℚ)
deriving DecidableEq, Repr

/-- A map-expectation outcome: only `success` at `BOOLEAN_ONLY`, `success`
plus `result_obj` at the other levels. -/
inductive MapOutcome
  | boolOnly (success : Bool)
  | full (success : Bool) (obj : MapResultObj)
deriving DecidableEq, Repr

/-- The `success` field of a map outcome. -/
def MapOutcome.succ : MapOutcome → Bool
  | .boolOnly s => s
  | .full s _ => s

/-- Modelled from the spec: `_format_column_map_output` lives in the base
`DataSet` class, which is not under `src/`. Per spec section 4.1:
`BOOLEAN_ONLY` returns only `success`; `BASIC`, `SUMMARY` and `COMPLETE`
(identical for map expectations) add a `result_obj` carrying
`element_count`, `missing_count = element_count - nonnull_count`,
`missing_percent` (`None` over an empty table), the unexpected fields and the
sample list passed by the caller (from which the unexpected fields are
derived, the sample list being the only unexpected data the call site at
source line 69-73 passes in); an unrecognized verbosity is a hard
configuration error. -/
def format_column_map_output (rf : ResultFormat) (success : Bool)
    (element_count nonnull_count : ℤ) (plist : List (Option ℚ)) :
    Except EvalError MapOutcome :=
  if rf.result_obj_format = "BOOLEAN_ONLY" then .ok (.boolOnly success)
  else if rf.result_obj_format = "BASIC" ∨ rf.result_obj_format = "SUMMARY"
      ∨ rf.result_obj_format = "COMPLETE" then
    .ok (.full success
      { element_count := element_count
        missing_count := element_count - nonnull_count
        missing_percent :=
          if element_count = 0 then none
          else some (((element_count - nonnull_count : ℤ) : ℚ) / (element_count : ℚ))
        unexpected_count := plist.length
        unexpected_percent :=
          if nonnull_count = 0 then none
          else some ((plist.length : ℚ) / (nonnull_count : ℚ))
        partial_unexpected_list := plist })
  else .error (.valueError ("Unknown result_format " ++ rf.result_obj_format ++ "."))

/-- Source `column_map_expectation.inner_wrapper` (lines 32-75). `func` is
the already-applied predicate function: it returns the pushed-down
unexpected-condition, or the error it raises. The wrapper resolves the
result format and the sample bound, calls `func`, runs the combined count
query (one round trip), runs the bounded sample query (a second round trip),
and computes the outcome; querying an absent column fails engine-side, and
subtracting a NULL `SUM` (empty table) raises a `TypeError`. The second
component counts backend round trips. -/
def column_map_expectation (d : Dataset) (column : String)
    (func : Except EvalError (Option ℚ → TV)) (mostly : Option ℚ)
    (result_format : Option ResultFormat) :
    Except EvalError MapOutcome × ℕ :=
  let rf := resolve_result_format d result_format
  let limit := resolve_unexpected_count_limit rf
  match func with
  | .error e => (.error e, 0)
  | .ok cond =>
    if column ∈ d.colNames then
      let vals := d.colData column
      let element_count : ℤ := d.element_count
      let null_count : Option ℤ := sqlSumCase vals sqlIsNull
      let unexpected_count : Option ℤ := sqlSumCase vals cond
      let ulist := applyLimit limit (vals.filter (fun v => cond v == TV.t))
      match null_count, unexpected_count with
      | some nc, some uc =>
        let nonnull_count := element_count - nc
        let success_count := nonnull_count - uc
        let success := calc_map_expectation_success success_count nonnull_count mostly
        (format_column_map_output rf success element_count nonnull_count ulist, 2)
      | _, _ =>
        (.error (.typeError "unsupported operand type for -: NoneType"), 2)
    else (.error (.backendError ("no such column: " ++ column)), 1)

/-- Source `expect_column_values_to_be_null` (line 286): the unexpected
condition is `column IS NOT NULL`. -/
def expect_column_values_to_be_null_cond : Except EvalError (Option ℚ → TV) :=
  .ok sqlIsNotNull

/-- Source `expect_column_values_to_not_be_null` (line 296): the unexpected
condition is `column IS NULL`. -/
def expect_column_values_to_not_be_null_cond : Except EvalError (Option ℚ → TV) :=
  .ok sqlIsNull

/-- Source `expect_column_values_to_be_in_set` (line 307): the unexpected
condition is `NOT (column IN values_set)`. -/
def expect_column_values_to_be_in_set_cond (values_set : List ℚ) :
    Except EvalError (Option ℚ → TV) :=
  .ok (fun v => tvNot (sqlIn v values_set))

/-- Source `expect_column_values_to_be_between` (lines 320-332), with
`parse_strings_as_datetimes` left at its default: first the
`min_value > max_value` check (under Python 2 ordering, where `None` sorts
below every number), then the both-`None` check, then the condition
`NOT (min_value <= column AND column <= max_value)`; a `None` bound reaches
SQL as a NULL literal, so its comparison is three-valued. -/
def expect_column_values_to_be_between_cond (min_value max_value : Option ℚ) :
    Except EvalError (Option ℚ → TV) :=
  if pyGtOpt min_value max_value then
    .error (.valueError "min_value cannot be greater than max_value")
  else if min_value = none ∧ max_value = none then
    .error (.valueError "min_value and max_value cannot both be None")
  else
    .ok (fun v => tvNot (tvAnd (sqlLe min_value v) (sqlLe v max_value)))

/-- The wrapped `expect_column_values_to_be_null`. -/
def expect_column_values_to_be_null (d : Dataset) (column : String)
    (mostly : Option ℚ) (result_format : Option ResultFormat) :
    Except EvalError MapOutcome × ℕ :=
  column_map_expectation d column expect_column_values_to_be_null_cond mostly result_format

/-- The wrapped `expect_column_values_to_not_be_null`. -/
def expect_column_values_to_not_be_null (d : Dataset) (column : String)
    (mostly : Option ℚ) (result_format : Option ResultFormat) :
    Except EvalError MapOutcome × ℕ :=
  column_map_expectation d column expect_column_values_to_not_be_null_cond mostly result_format

/-- The wrapped `expect_column_values_to_be_in_set`. -/
def expect_column_values_to_be_in_set (d : Dataset) (column : String)
    (values_set : List ℚ) (mostly : Option ℚ) (result_format : Option ResultFormat) :
    Except EvalError MapOutcome × ℕ :=
  column_map_expectation d column (expect_column_values_to_be_in_set_cond values_set)
    mostly result_format

/-- The wrapped `expect_column_values_to_be_between`. -/
def expect_column_values_to_be_between (d : Dataset) (column : String)
    (min_value max_value : Option ℚ) (mostly : Option ℚ)
    (result_format : Option ResultFormat) :
    Except EvalError MapOutcome × ℕ :=
  column_map_expectation d column
    (expect_column_values_to_be_between_cond min_value max_value) mostly result_format

/-- The dictionary a statistic function's `result_obj` holds: the outer
`Option` on `observed_value` records whether the key is present at all (its
value may itself be SQL NULL), `details` is an optional pass-through block. -/
structure AggEvalObj where
  observed_value : Option (Option ℚ)
  details : Option String := none
deriving DecidableEq, Repr

/-- The dictionary a statistic function returns: each `Option` records
whether the key is present. -/
structure AggEvalResult where
  success : Option PyVal
  result_obj : Option AggEvalObj
deriving DecidableEq, Repr

/-- The `result_obj` of an aggregate-expectation outcome (source lines
128-139): `missing_count` stores `null_count` as fetched, which is SQL NULL
over an empty table; `details` is present only when the statistic function
supplied one. -/
structure AggResultObj where
  observed_value : Option ℚ
  element_count : ℤ
  missing_count : Option ℤ
  missing_percent : Option ℚ
  details : Option String := none
deriving DecidableEq, Repr

/-- An aggregate-expectation outcome. -/
inductive AggOutcome
  | boolOnly (success : Bool)
  | full (success : Bool) (obj : AggResultObj)
deriving DecidableEq, Repr

/-- The `success` field of an aggregate outcome. -/
def AggOutcome.succ : AggOutcome → Bool
  | .boolOnly s => s
  | .full s _ => s

/-- Source `column_aggregate_expectation.inner_wrapper` (lines 89-146).
`funcResult` is the already-applied statistic function: the result it
returns (or the error it raises) together with the backend round trips it
performed. The wrapper resolves the result format (the sample bound of
lines 96-102 is computed but never used), validates the returned shape,
coerces `success` with `bool()`, returns at `BOOLEAN_ONLY`, runs the count
query (one more round trip), returns at `BASIC`, attaches `details`,
returns at `SUMMARY`/`COMPLETE`, and otherwise raises the unknown-format
`ValueError` - after both queries have run. -/
def column_aggregate_expectation (d : Dataset) (column : String)
    (funcResult : Except EvalError AggEvalResult × ℕ)
    (result_format : Option ResultFormat) :
    Except EvalError AggOutcome × ℕ :=
  let rf := resolve_result_format d result_format
  let _limit := resolve_unexpected_count_limit rf
  match funcResult with
  | (.error e, k) => (.error e, k)
  | (.ok er, k) =>
    match er.success, er.result_obj with
    | some sv, some obj =>
      match obj.observed_value with
      | some ov =>
        let success := pyTruthy sv
        if rf.result_obj_format = "BOOLEAN_ONLY" then (.ok (.boolOnly success), k)
        else if column ∈ d.colNames then
          let vals := d.colData column
          let element_count : ℤ := d.element_count
          let null_count : Option ℤ := sqlSumCase vals sqlIsNull
          let robj : AggResultObj :=
            { observed_value := ov
              element_count := element_count
              missing_count := null_count
              missing_percent :=
                match null_count, decide (element_count > 0) with
                | some nc, true => some ((nc : ℚ) / (element_count : ℚ))
                | _, _ => none }
          if rf.result_obj_format = "BASIC" then (.ok (.full success robj), k + 1)
          else
            let robj2 := { robj with details := obj.details }
            if rf.result_obj_format = "SUMMARY" ∨ rf.result_obj_format = "COMPLETE" then
              (.ok (.full success robj2), k + 1)
            else
              (.error (.valueError
                ("Unknown result_format " ++ rf.result_obj_format ++ ".")), k + 1)
        else (.error (.backendError ("no such column: " ++ column)), k + 1)
      | none =>
        (.error (.valueError
          "Column aggregate expectation failed to return required return information."), k)
    | _, _ =>
      (.error (.valueError
        "Column aggregate expectation failed to return required return information."), k)

/-- Source lines 365-372 / 403-410 / 435-442 / 470-477: the three-branch
`success` computation shared by the bounded aggregate expectations; `none`
means no branch assigned the local (both bounds `None`), in which case
reading it raises a `NameError`. Comparison with a NULL statistic follows
Python 2 ordering. -/
def between_success (min_value max_value observed : Option ℚ) : Option Bool :=
  if min_value ≠ none ∧ max_value ≠ none then
    some (pyLeOpt min_value observed && pyLeOpt observed max_value)
  else if min_value = none ∧ max_value ≠ none then
    some (pyLeOpt observed max_value)
  else if min_value ≠ none ∧ max_value = none then
    some (pyLeOpt min_value observed)
  else none

/-- A well-shaped statistic result: `success` and an `observed_value`. -/
def mkAggResult (success : Bool) (observed : Option ℚ) : AggEvalResult :=
  { success := some (.bool success)
    result_obj := some { observed_value := some observed } }

/-- Source `expect_column_max_to_be_between` (lines 346-379), with
`parse_strings_as_datetimes` left at its default: the both-`None` check,
then the `MAX` query (one round trip), then the three-branch comparison. -/
def expect_column_max_to_be_between_stat (d : Dataset) (column : String)
    (min_value max_value : Option ℚ) : Except EvalError AggEvalResult × ℕ :=
  if min_value = none ∧ max_value = none then
    (.error (.valueError "min_value and max_value cannot both be None"), 0)
  else if column ∈ d.colNames then
    let col_max := sqlMax (d.colData column)
    match between_success min_value max_value col_max with
    | some success => (.ok (mkAggResult success col_max), 1)
    | none => (.error (.nameError "success"), 1)
  else (.error (.backendError ("no such column: " ++ column)), 1)

/-- Source `expect_column_min_to_be_between` (lines 384-417). -/
def expect_column_min_to_be_between_stat (d : Dataset) (column : String)
    (min_value max_value : Option ℚ) : Except EvalError AggEvalResult × ℕ :=
  if min_value = none ∧ max_value = none then
    (.error (.valueError "min_value and max_value cannot both be None"), 0)
  else if column ∈ d.colNames then
    let col_min := sqlMin (d.colData column)
    match between_success min_value max_value col_min with
    | some success => (.ok (mkAggResult success col_min), 1)
    | none => (.error (.nameError "success"), 1)
  else (.error (.backendError ("no such column: " ++ column)), 1)

/-- Source `expect_column_sum_to_be_between` (lines 421-449). -/
def expect_column_sum_to_be_between_stat (d : Dataset) (column : String)
    (min_value max_value : Option ℚ) : Except EvalError AggEvalResult × ℕ :=
  if min_value = none ∧ max_value = none then
    (.error (.valueError "min_value and max_value cannot both be None"), 0)
  else if column ∈ d.colNames then
    let col_sum := sqlSum (d.colData column)
    match between_success min_value max_value col_sum with
    | some success => (.ok (mkAggResult success col_sum), 1)
    | none => (.error (.nameError "success"), 1)
  else (.error (.backendError ("no such column: " ++ column)), 1)

/-- Source `expect_column_mean_to_be_between` (lines 453-484): the
both-`None` check, the cached-schema numeric-type check, then the `AVG`
query. -/
def expect_column_mean_to_be_between_stat (d : Dataset) (column : String)
    (min_value max_value : Option ℚ) : Except EvalError AggEvalResult × ℕ :=
  if min_value = none ∧ max_value = none then
    (.error (.valueError "min_value and max_value cannot both be None"), 0)
  else if ¬ d.is_numeric_column column then
    (.error (.valueError "column is not numeric"), 0)
  else if column ∈ d.colNames then
    let col_avg := sqlAvg (d.colData column)
    match between_success min_value max_value col_avg with
    | some success => (.ok (mkAggResult success col_avg), 1)
    | none => (.error (.nameError "success"), 1)
  else (.error (.backendError ("no such column: " ++ column)), 1)

/-- The wrapped `expect_column_max_to_be_between`. -/
def expect_column_max_to_be_between (d : Dataset) (column : String)
    (min_value max_value : Option ℚ) (result_format : Option ResultFormat) :
    Except EvalError AggOutcome × ℕ :=
  column_aggregate_expectation d column
    (expect_column_max_to_be_between_stat d column min_value max_value) result_format

/-- The wrapped `expect_column_min_to_be_between`. -/
def expect_column_min_to_be_between (d : Dataset) (column : String)
    (min_value max_value : Option ℚ) (result_format : Option ResultFormat) :
    Except EvalError AggOutcome × ℕ :=
  column_aggregate_expectation d column
    (expect_column_min_to_be_between_stat d column min_value max_value) result_format

/-- The wrapped `expect_column_sum_to_be_between`. -/
def expect_column_sum_to_be_between (d : Dataset) (column : String)
    (min_value max_value : Option ℚ) (result_format : Option ResultFormat) :
    Except EvalError AggOutcome × ℕ :=
  column_aggregate_expectation d column
    (expect_column_sum_to_be_between_stat d column min_value max_value) result_format

/-- The wrapped `expect_column_mean_to_be_between`. -/
def expect_column_mean_to_be_between (d : Dataset) (column : String)
    (min_value max_value : Option ℚ) (result_format : Option ResultFormat) :
    Except EvalError AggOutcome × ℕ :=
  column_aggregate_expectation d column
    (expect_column_mean_to_be_between_stat d column min_value max_value) result_format

/-- The result dictionary of a table-level row-count expectation. -/
structure RowCountOutcome where
  success : Bool
  observed_value : ℤ
deriving DecidableEq, Repr

/-- Source lines 189-194 / 217-225: the try-block computes
`float(value).is_integer()` and discards the result, so only a failing
`float()` conversion (caught as `ValueError`) raises; a non-integer number
passes. `true` means the check passed. -/
def intCheckPasses : Option PyVal → Bool
  | none => true
  | some v => (floatConv v).isSome

/-- Source `expect_table_row_count_to_equal` (lines 184-207): the discarded
integer check (raising only when `float()` fails), the `None` check, the
`COUNT(*)` query, and the `row_count == value` comparison. -/
def expect_table_row_count_to_equal (d : Dataset) (value : Option PyVal) :
    Except EvalError RowCountOutcome × ℕ :=
  if ¬ intCheckPasses value then
    (.error (.valueError "value must an integer"), 0)
  else
    match value with
    | none => (.error (.valueError "value must be provided"), 0)
    | some v =>
      let row_count : ℤ := d.element_count
      (.ok { success := pyEqIntVal row_count v, observed_value := row_count }, 1)

/-- Source lines 230-237 for the row-count bounds: `none` means no branch
assigned `outcome` (both bounds `None`). -/
def row_count_between_outcome (row_count : ℤ) (min_value max_value : Option PyVal) :
    Option Bool :=
  match min_value, max_value with
  | some a, some b => some (pyGeIntVal row_count a && pyLeIntVal row_count b)
  | none, some b => some (pyLeIntVal row_count b)
  | some a, none => some (pyGeIntVal row_count a)
  | none, none => none

/-- Source `expect_table_row_count_to_be_between` (lines 211-244): the
discarded integer checks (`min_value` first), the `COUNT(*)` query, the
three-branch `outcome` assignment, and the final read of `outcome` - which
raises a `NameError` when both bounds were `None`, after the query ran. -/
def expect_table_row_count_to_be_between (d : Dataset)
    (min_value max_value : Option PyVal) :
    Except EvalError RowCountOutcome × ℕ :=
  if ¬ intCheckPasses min_value then
    (.error (.valueError "min_value and max_value must be integers"), 0)
  else if ¬ intCheckPasses max_value then
    (.error (.valueError "min_value and max_value must be integers"), 0)
  else
    let row_count : ℤ := d.element_count
    match row_count_between_outcome row_count min_value max_value with
    | some outcome =>
      (.ok { success := outcome, observed_value := row_count }, 1)
    | none => (.error (.nameError "outcome"), 1)

/-- The top-level and nested key set of a map outcome. -/
def MapOutcome.allKeys : MapOutcome → List String
  | .boolOnly _ => ["success"]
  | .full _ _ =>
      ["success", "result_obj", "element_count", "missing_count",
       "missing_percent", "unexpected_count", "unexpected_percent",
       "partial_unexpected_list"]

/-- The top-level and nested key set of an aggregate outcome: `details`
appears only when present. -/
def AggOutcome.allKeys : AggOutcome → List String
  | .boolOnly _ => ["success"]
  | .full _ o =>
      ["success", "result_obj", "observed_value", "element_count",
       "missing_count", "missing_percent"] ++
      (if o.details.isSome then ["details"] else [])

deriving instance DecidableEq for Except

/-! ## Concrete datasets used by witnesses and counterexamples -/

/-- The `BASIC` result format. -/
def rfBasic : ResultFormat := { result_obj_format := "BASIC" }

/-- The `SUMMARY` result format. -/
def rfSummary : ResultFormat := { result_obj_format := "SUMMARY" }

/-- The `COMPLETE` result format. -/
def rfComplete : ResultFormat := { result_obj_format := "COMPLETE" }

/-- The `BOOLEAN_ONLY` result format. -/
def rfBoolOnly : ResultFormat := { result_obj_format := "BOOLEAN_ONLY" }

/-- A three-row table whose column `x` holds `[NULL, NULL, 1]`. -/
def dsNulls : Dataset :=
  { columns := [{ name := "x", numeric := true }]
    rows := [[("x", none)], [("x", none)], [("x", some 1)]]
    default_result_format := rfBasic }

/-- The spec's ten-row scenario table: column `x` holds
`[1, 2, 3, NULL, 5, 6, 7, 8, 9, 10]`. -/
def dsTen : Dataset :=
  { columns := [{ name := "x", numeric := true }]
    rows := [[("x", some 1)], [("x", some 2)], [("x", some 3)], [("x", none)],
             [("x", some 5)], [("x", some 6)], [("x", some 7)], [("x", some 8)],
             [("x", some 9)], [("x", some 10)]]
    default_result_format := rfBasic }

/-! ## Helper lemmas -/

/-- Evaluation of the `BEq` test against SQL true. -/
@[simp] lemma tv_beq_t_t : (TV.t == TV.t) = true := rfl

/-- Evaluation of the `BEq` test against SQL true. -/
@[simp] lemma tv_beq_f_t : (TV.f == TV.t) = false := rfl

/-- Evaluation of the `BEq` test against SQL true. -/
@[simp] lemma tv_beq_n_t : (TV.n == TV.t) = false := rfl

/-- A successfully formatted outcome carries the success Boolean it was
given. -/
lemma format_succ {rf : ResultFormat} {s : Bool} {ec nn : ℤ}
    {pl : List (Option ℚ)} {o : MapOutcome}
    (h : format_column_map_output rf s ec nn pl = .ok o) : o.succ = s := by
  unfold format_column_map_output at h
  split at h
  · injection h with h
    subst h
    rfl
  · split at h
    · injection h with h
      subst h
      rfl
    · simp at h

/-- A successfully formatted full outcome carries the sample list it was
given. -/
lemma format_full_list {rf : ResultFormat} {s s2 : Bool} {ec nn : ℤ}
    {pl : List (Option ℚ)} {obj : MapResultObj}
    (h : format_column_map_output rf s ec nn pl = .ok (.full s2 obj)) :
    obj.partial_unexpected_list = pl := by
  unfold format_column_map_output at h
  split at h
  · simp at h
  · split at h
    · injection h with h
      injection h with h1 h2
      subst h2
      rfl
    · simp at h

/-- A successful run of the map evaluator is exactly a successful
formatting of the counts the count query reports and of the bounded
sample. -/
lemma map_run_ok_cases {d : Dataset} {c : String} {cond : Option ℚ → TV}
    {mostly : Option ℚ} {rfArg : Option ResultFormat} {o : MapOutcome} {nq : ℕ}
    (hrun : column_map_expectation d c (.ok cond) mostly rfArg = (.ok o, nq)) :
    format_column_map_output (resolve_result_format d rfArg)
        (calc_map_expectation_success
          (d.nonnull_count c - (d.unexpected_count c cond : ℤ))
          (d.nonnull_count c) mostly)
        d.element_count (d.nonnull_count c)
        (applyLimit (resolve_unexpected_count_limit (resolve_result_format d rfArg))
          ((d.colData c).filter (fun v => cond v == TV.t))) = .ok o ∧ nq = 2 := by
  simp only [column_map_expectation] at hrun
  split at hrun
  · by_cases he : (d.colData c).isEmpty
    · simp [sqlSumCase, he] at hrun
    · simp only [sqlSumCase, he, if_neg, Bool.false_eq_true, not_false_iff] at hrun
      rw [Prod.mk.injEq] at hrun
      exact ⟨hrun.1, hrun.2.symm⟩
  · simp at hrun

/-- `calc_map_expectation_success` with `mostly = None` over at least one
non-null row decides whether the unexpected count is zero. -/
lemma calc_none_iff {sc nn : ℤ} (hnn : nn ≠ 0) :
    calc_map_expectation_success sc nn none = true ↔ nn - sc = 0 := by
  simp [calc_map_expectation_success, hnn]

/-- `calc_map_expectation_success` with `mostly = m` over at least one
non-null row decides the inclusive ratio comparison. -/
lemma calc_some_iff {sc nn : ℤ} {m : ℚ} (hnn : nn ≠ 0) :
    calc_map_expectation_success sc nn (some m) = true ↔ (sc : ℚ) / (nn : ℚ) ≥ m := by
  simp [calc_map_expectation_success, hnn]

/-- `calc_map_expectation_success` over zero non-null rows is true. -/
lemma calc_zero (sc : ℤ) (mostly : Option ℚ) :
    calc_map_expectation_success sc 0 mostly = true := by
  simp [calc_map_expectation_success]

/-! ## C1 -/

/-- C1: for every column-map expectation the success decision is the pure
function `calc_map_expectation_success` of `(success_count, nonnull_count,
mostly)` with `success_count = nonnull_count - unexpected_count`: over at
least one non-null row, with `mostly = None` success holds iff
`unexpected_count = 0`, and with `mostly = m ∈ [0,1]` success holds iff
`success_count / nonnull_count ≥ m` (boundary inclusive); over zero
non-null rows success is true regardless of `mostly`. -/
theorem C1_success_decision (d : Dataset) (c : String) (cond : Option ℚ → TV)
    (mostly : Option ℚ) (rfArg : Option ResultFormat) (o : MapOutcome) (nq : ℕ)
    (hrun : column_map_expectation d c (.ok cond) mostly rfArg = (.ok o, nq)) :
    o.succ = calc_map_expectation_success
        (d.nonnull_count c - (d.unexpected_count c cond : ℤ))
        (d.nonnull_count c) mostly
    ∧ (mostly = none → d.nonnull_count c > 0 →
        (o.succ = true ↔ d.unexpected_count c cond = 0))
    ∧ (∀ m : ℚ, mostly = some m → 0 ≤ m → m ≤ 1 → d.nonnull_count c > 0 →
        (o.succ = true ↔
          ((d.nonnull_count c - (d.unexpected_count c cond : ℤ) : ℤ) : ℚ) /
            ((d.nonnull_count c : ℤ) : ℚ) ≥ m))
    ∧ (d.nonnull_count c = 0 → o.succ = true) := by
  have hfmt := (map_run_ok_cases hrun).1
  have hs := format_succ hfmt
  refine ⟨hs, ?_, ?_, ?_⟩
  · rintro rfl hpos
    rw [hs, calc_none_iff (by omega)]
    omega
  · rintro m rfl _ _ hpos
    rw [hs, calc_some_iff (by omega)]
  · intro hzero
    rw [hs, hzero]
    exact calc_zero _ _

/-- Witness for C1: the spec's ten-row scenario, values between 1 and 9
with `mostly = 4/5`: the run succeeds (8/9 ≥ 4/5, one unexpected value). -/
theorem C1_success_decision_witness :
    column_map_expectation dsTen "x"
        (expect_column_values_to_be_between_cond (some 1) (some 9)) (some (4/5))
        (some rfComplete) =
      (.ok (.full true
        { element_count := 10, missing_count := 1, missing_percent := some (1/10),
          unexpected_count := 1, unexpected_percent := some (1/9),
          partial_unexpected_list := [some 10] }), 2)
    ∧ ((MapOutcome.full true
        { element_count := 10, missing_count := 1, missing_percent := some (1/10),
          unexpected_count := 1, unexpected_percent := some (1/9),
          partial_unexpected_list := [some 10] }).succ = true ↔
        ((dsTen.nonnull_count "x" -
          (dsTen.unexpected_count "x"
            (fun v => tvNot (tvAnd (sqlLe (some 1) v) (sqlLe v (some 9)))) : ℤ) : ℤ) : ℚ) /
          ((dsTen.nonnull_count "x" : ℤ) : ℚ) ≥ (4/5 : ℚ)) := by
  have hrun : column_map_expectation dsTen "x"
      (.ok (fun v => tvNot (tvAnd (sqlLe (some 1) v) (sqlLe v (some 9))))) (some (4/5))
      (some rfComplete) =
      (.ok (.full true
        { element_count := 10, missing_count := 1, missing_percent := some (1/10),
          unexpected_count := 1, unexpected_percent := some (1/9),
          partial_unexpected_list := [some 10] }), 2) := by
    norm_num [column_map_expectation, dsTen, rfComplete, resolve_result_format,
      resolve_unexpected_count_limit, sqlSumCase, caseCount, applyLimit,
      Dataset.colData, Dataset.colNames, Dataset.element_count, rowGet,
      tvNot, tvAnd, sqlLe, sqlIsNull, TV.ofBool, calc_map_expectation_success,
      format_column_map_output, List.filter]
    intro h
    exact absurd h (by decide)
  refine ⟨by rw [show expect_column_values_to_be_between_cond (some 1) (some 9) =
      .ok (fun v => tvNot (tvAnd (sqlLe (some 1) v) (sqlLe v (some 9)))) from rfl]; exact hrun, ?_⟩
  exact (C1_success_decision dsTen "x"
    (fun v => tvNot (tvAnd (sqlLe (some 1) v) (sqlLe v (some 9)))) (some (4/5))
    (some rfComplete) _ 2 hrun).2.2.1 (4/5) rfl (by norm_num) (by norm_num)
    (by norm_num [Dataset.nonnull_count, Dataset.element_count, Dataset.null_count,
      Dataset.colData, caseCount, sqlIsNull, dsTen, rowGet, TV.ofBool, List.filter])

/-! ## C2 -/

/-- `caseCount` is a `countP`. -/
lemma caseCount_eq_countP (vals : List (Option ℚ)) (cond : Option ℚ → TV) :
    caseCount vals cond = vals.countP (fun v => cond v == TV.t) := by
  simp [caseCount, List.countP_eq_length_filter]

/-- A condition that is not true on NULL counts at most the non-null rows:
the condition count plus the null count is bounded by the row count. -/
lemma caseCount_add_null_le (vals : List (Option ℚ)) (cond : Option ℚ → TV)
    (h : cond none ≠ TV.t) :
    caseCount vals cond + caseCount vals sqlIsNull ≤ vals.length := by
  rw [caseCount_eq_countP, caseCount_eq_countP]
  induction vals with
  | nil => simp
  | cons v tl ih =>
    simp only [List.countP_cons, List.length_cons]
    rcases v with _ | x
    · have e1 : (cond none == TV.t) = false := by
        cases hc : cond none <;> simp_all
      have e2 : (sqlIsNull none == TV.t) = true := rfl
      simp [e1, e2]
      omega
    · have e2 : (sqlIsNull (some x) == TV.t) = false := rfl
      simp [e2]
      split <;> omega

/-- A column's data list is as long as the table. -/
lemma colData_length (d : Dataset) (c : String) :
    (d.colData c).length = d.rows.length := by
  simp [Dataset.colData]

/-- C2 as amended: for every pushed-down condition that is not true on a
NULL cell - which covers `expect_column_values_to_be_null` (condition
`IS NOT NULL`), `expect_column_values_to_be_in_set` and
`expect_column_values_to_be_between` (three-valued conditions, null on a
NULL cell) - the unexpected count is bounded by the non-null count; but the
condition of `expect_column_values_to_not_be_null` is `IS NULL`, which
counts exactly the null rows, so there the bound can fail. -/
theorem C2_nulls_never_unexpected :
    (∀ (d : Dataset) (c : String) (cond : Option ℚ → TV), cond none ≠ TV.t →
      (d.unexpected_count c cond : ℤ) ≤ d.nonnull_count c)
    ∧ sqlIsNotNull none ≠ TV.t
    ∧ (∀ s : List ℚ, tvNot (sqlIn none s) ≠ TV.t)
    ∧ (∀ mn mx : Option ℚ, tvNot (tvAnd (sqlLe mn none) (sqlLe none mx)) ≠ TV.t)
    ∧ (∀ (d : Dataset) (c : String), d.unexpected_count c sqlIsNull = d.null_count c) := by
  refine ⟨?_, by decide, ?_, ?_, fun d c => rfl⟩
  · intro d c cond h
    have hb := caseCount_add_null_le (d.colData c) cond h
    have hlen := colData_length d c
    unfold Dataset.unexpected_count Dataset.nonnull_count Dataset.null_count
      Dataset.element_count
    omega
  · intro s
    simp [sqlIn, tvNot]
  · intro mn mx
    rcases mn with _ | a <;> rcases mx with _ | b <;> simp [sqlLe, tvAnd, tvNot]

/-- Witness for C2 as amended: the `IS NOT NULL` condition of
`expect_column_values_to_be_null` on the ten-row table. -/
theorem C2_nulls_never_unexpected_witness :
    sqlIsNotNull (none : Option ℚ) ≠ TV.t
    ∧ ((dsTen.unexpected_count "x" sqlIsNotNull : ℤ) ≤ dsTen.nonnull_count "x") :=
  ⟨by decide, C2_nulls_never_unexpected.1 dsTen "x" sqlIsNotNull (by decide)⟩

/-- Counterexample to C2 as stated: `expect_column_values_to_not_be_null`
on a three-row table holding `[NULL, NULL, 1]` reports `unexpected_count =
2` while `nonnull_count = 1`: the two null rows are counted as unexpected
and the invariant `unexpected_count ≤ nonnull_count` fails. -/
theorem C2_counterexample :
    expect_column_values_to_not_be_null dsNulls "x" none (some rfComplete) =
      (.ok (.full false
        { element_count := 3, missing_count := 2, missing_percent := some (2/3),
          unexpected_count := 2, unexpected_percent := some 2,
          partial_unexpected_list := [none, none] }), 2)
    ∧ dsNulls.unexpected_count "x" sqlIsNull = 2
    ∧ dsNulls.nonnull_count "x" = 1
    ∧ ¬ ((dsNulls.unexpected_count "x" sqlIsNull : ℤ) ≤ dsNulls.nonnull_count "x") := by
  refine ⟨?_, by decide, by decide, by decide⟩
  norm_num [expect_column_values_to_not_be_null,
    expect_column_values_to_not_be_null_cond, column_map_expectation, dsNulls,
    rfComplete, resolve_result_format, resolve_unexpected_count_limit,
    sqlSumCase, caseCount, applyLimit, Dataset.colData, Dataset.colNames,
    Dataset.element_count, rowGet, sqlIsNull, TV.ofBool,
    calc_map_expectation_success, format_column_map_output, List.filter]
  intro h
  exact absurd h (by decide)

/-! ## C3 -/

/-- C3 as amended: the map evaluator never checks the column against the
introspected schema; for a column absent from the table the count query is
still issued and the run fails with a backend-side error after one round
trip - not with a `SchemaError` before any query. -/
theorem C3_no_schema_check (d : Dataset) (c : String) (cond : Option ℚ → TV)
    (mostly : Option ℚ) (rfArg : Option ResultFormat) (hc : c ∉ d.colNames) :
    column_map_expectation d c (.ok cond) mostly rfArg =
      (.error (.backendError ("no such column: " ++ c)), 1) := by
  simp [column_map_expectation, hc]

/-- Witness for C3 as amended: column `z` is not in the schema and the run
performs one round trip and fails engine-side. -/
theorem C3_no_schema_check_witness :
    ("z" ∉ dsNulls.colNames)
    ∧ column_map_expectation dsNulls "z" (.ok sqlIsNull) none (some rfComplete) =
        (.error (.backendError ("no such column: " ++ "z")), 1) :=
  ⟨by decide, C3_no_schema_check dsNulls "z" sqlIsNull none (some rfComplete) (by decide)⟩

/-- Counterexample to C3 as stated: an expectation on the nonexistent
column `z` does not raise a `SchemaError` with zero backend round trips; it
issues the count query (one round trip) and fails with a backend error. -/
theorem C3_counterexample :
    expect_column_values_to_not_be_null dsNulls "z" none (some rfComplete) =
      (.error (.backendError "no such column: z"), 1)
    ∧ (1 : ℕ) ≠ 0 := by
  exact ⟨by decide, by decide⟩

/-! ## C4 -/

/-- C4: the resolved sample bound is `partial_unexpected_count` when that
key is present, else `None` (unbounded) at `COMPLETE`, else 20; and the
returned `partial_unexpected_list` has length `min(unexpected_count,
bound)` (`unexpected_count` itself when the bound is `None`). -/
theorem C4_sample_bound (rf : ResultFormat) (d : Dataset) (c : String)
    (cond : Option ℚ → TV) (mostly : Option ℚ) (s : Bool) (obj : MapResultObj)
    (nq : ℕ)
    (hrun : column_map_expectation d c (.ok cond) mostly (some rf) =
      (.ok (.full s obj), nq)) :
    (∀ k, rf.partial_unexpected_count = some k →
        resolve_unexpected_count_limit rf = some k)
    ∧ (rf.partial_unexpected_count = none → rf.result_obj_format = "COMPLETE" →
        resolve_unexpected_count_limit rf = none)
    ∧ (rf.partial_unexpected_count = none → rf.result_obj_format ≠ "COMPLETE" →
        resolve_unexpected_count_limit rf = some 20)
    ∧ obj.partial_unexpected_list.length =
        (match resolve_unexpected_count_limit rf with
         | none => d.unexpected_count c cond
         | some k => min (d.unexpected_count c cond) k) := by
  refine ⟨?_, ?_, ?_, ?_⟩
  · intro k hk
    simp [resolve_unexpected_count_limit, hk]
  · intro hk hfmt
    simp [resolve_unexpected_count_limit, hk, hfmt]
  · intro hk hfmt
    simp [resolve_unexpected_count_limit, hk, hfmt]
  · have hfmt := (map_run_ok_cases hrun).1
    have hlist := format_full_list hfmt
    rw [hlist]
    cases hl : resolve_unexpected_count_limit (resolve_result_format d (some rf)) with
    | none =>
      have : resolve_unexpected_count_limit rf = none := hl
      rw [this]
      rfl
    | some k =>
      have : resolve_unexpected_count_limit rf = some k := hl
      rw [this]
      simp [applyLimit, List.length_take, Dataset.unexpected_count, caseCount,
        Nat.min_comm]

/-- Witness for C4: `partial_unexpected_count = 1` with two unexpected rows
yields a one-element sample, `min 2 1`. -/
theorem C4_sample_bound_witness :
    column_map_expectation dsNulls "x" (.ok sqlIsNull) none
        (some { result_obj_format := "SUMMARY", partial_unexpected_count := some 1 }) =
      (.ok (.full false
        { element_count := 3, missing_count := 2, missing_percent := some (2/3),
          unexpected_count := 1, unexpected_percent := some 1,
          partial_unexpected_list := [none] }), 2)
    ∧ resolve_unexpected_count_limit
        { result_obj_format := "SUMMARY", partial_unexpected_count := some 1 } = some 1
    ∧ ([(none : Option ℚ)].length =
        min (dsNulls.unexpected_count "x" sqlIsNull) 1) := by
  have hrun : column_map_expectation dsNulls "x" (.ok sqlIsNull) none
      (some { result_obj_format := "SUMMARY", partial_unexpected_count := some 1 }) =
      (.ok (.full false
        { element_count := 3, missing_count := 2, missing_percent := some (2/3),
          unexpected_count := 1, unexpected_percent := some 1,
          partial_unexpected_list := [none] }), 2) := by
    norm_num [column_map_expectation, dsNulls, resolve_result_format,
      resolve_unexpected_count_limit, sqlSumCase, caseCount, applyLimit,
      Dataset.colData, Dataset.colNames, Dataset.element_count, rowGet,
      sqlIsNull, TV.ofBool, calc_map_expectation_success,
      format_column_map_output, List.filter]
    intro h
    exact absurd h (by decide)
  refine ⟨hrun, ?_, ?_⟩
  · exact (C4_sample_bound _ dsNulls "x" sqlIsNull none false _ 2 hrun).1 1 rfl
  · have h4 := (C4_sample_bound _ dsNulls "x" sqlIsNull none false _ 2 hrun).2.2.2
    simpa [resolve_unexpected_count_limit] using h4

/-! ## C5 -/

/-- C5 as amended: a column-aggregate expectation invoked with a verbosity
outside the four known levels does raise a hard `ValueError` (never a
silent default), but only after both the statistic query and the count
query have executed: the error surfaces with `k + 1` round trips performed,
where `k` counts the statistic function's own queries. -/
theorem C5_unknown_format_after_queries (d : Dataset) (c : String)
    (er : AggEvalResult) (k : ℕ) (rf : ResultFormat)
    (sv : PyVal) (obj : AggEvalObj) (ov : Option ℚ)
    (hsv : er.success = some sv) (hobj : er.result_obj = some obj)
    (hov : obj.observed_value = some ov)
    (h1 : rf.result_obj_format ≠ "BOOLEAN_ONLY")
    (h2 : rf.result_obj_format ≠ "BASIC")
    (h3 : rf.result_obj_format ≠ "SUMMARY")
    (h4 : rf.result_obj_format ≠ "COMPLETE")
    (hc : c ∈ d.colNames) :
    column_aggregate_expectation d c (.ok er, k) (some rf) =
      (.error (.valueError
        ("Unknown result_format " ++ rf.result_obj_format ++ ".")), k + 1) := by
  simp [column_aggregate_expectation, hsv, hobj, hov, resolve_result_format,
    h1, h2, h3, h4, hc]

/-- Witness for C5 as amended: verbosity `FOO` on a max expectation whose
statistic ran one query; the error surfaces after two round trips. -/
theorem C5_unknown_format_witness :
    (mkAggResult false (some 1)).success = some (.bool false)
    ∧ column_aggregate_expectation dsNulls "x" (.ok (mkAggResult false (some 1)), 1)
        (some { result_obj_format := "FOO" }) =
      (.error (.valueError "Unknown result_format FOO."), 2) :=
  ⟨rfl, C5_unknown_format_after_queries dsNulls "x" (mkAggResult false (some 1)) 1
    { result_obj_format := "FOO" } (.bool false) { observed_value := some (some 1) }
    (some 1) rfl rfl rfl (by decide) (by decide) (by decide) (by decide) (by decide)⟩

/-- Counterexample to C5 as stated: the full
`expect_column_max_to_be_between` run with verbosity `FOO` raises the
unknown-format error only after two backend round trips, not before any
query. -/
theorem C5_counterexample :
    expect_column_max_to_be_between dsNulls "x" (some 5) (some 3)
        (some { result_obj_format := "FOO" }) =
      (.error (.valueError "Unknown result_format FOO."), 2)
    ∧ (2 : ℕ) ≠ 0 :=
  ⟨by decide, by decide⟩

/-! ## C6 -/

/-- With `min_value > max_value` both present, the three-branch comparison
of the bounded aggregate expectations is always `False`: no value can be
above the minimum and below the maximum. -/
lemma between_success_gt {a b : ℚ} (h : a > b) (x : Option ℚ) :
    between_success (some a) (some b) x = some false := by
  rcases x with _ | q
  · simp [between_success, pyLeOpt]
  · by_cases h1 : a ≤ q
    · have h2 : ¬ q ≤ b := by linarith
      simp [between_success, pyLeOpt, h1, h2]
    · simp [between_success, pyLeOpt, h1]

/-- With integer `min_value > max_value` the row-count comparison is always
`False`. -/
lemma row_count_between_gt {a b : ℤ} (h : a > b) (n : ℤ) :
    row_count_between_outcome n (some (.int a)) (some (.int b)) = some false := by
  by_cases h1 : (n : ℚ) ≥ (a : ℚ)
  · have h2 : ¬ (n : ℚ) ≤ (b : ℚ) := by
      rw [not_le]
      have hab : (b : ℚ) < (a : ℚ) := by exact_mod_cast h
      linarith
    simp [row_count_between_outcome, pyGeIntVal, pyLeIntVal, pyNum, h1, h2]
  · simp [row_count_between_outcome, pyGeIntVal, pyLeIntVal, pyNum, h1]

/-- C6 as amended: with `min_value > max_value`, only
`expect_column_values_to_be_between` raises the `ValueError` before any
backend call; the four bounded aggregate expectations and
`expect_table_row_count_to_be_between` accept the contradictory bounds,
query the backend, and return `success = False`. -/
theorem C6_min_gt_max_not_uniform :
    (∀ (d : Dataset) (c : String) (a b : ℚ) (mostly : Option ℚ)
        (rfArg : Option ResultFormat), a > b →
      expect_column_values_to_be_between d c (some a) (some b) mostly rfArg =
        (.error (.valueError "min_value cannot be greater than max_value"), 0))
    ∧ (∀ (d : Dataset) (c : String) (a b : ℚ), a > b → c ∈ d.colNames →
      expect_column_max_to_be_between_stat d c (some a) (some b) =
        (.ok (mkAggResult false (sqlMax (d.colData c))), 1))
    ∧ (∀ (d : Dataset) (c : String) (a b : ℚ), a > b → c ∈ d.colNames →
      expect_column_min_to_be_between_stat d c (some a) (some b) =
        (.ok (mkAggResult false (sqlMin (d.colData c))), 1))
    ∧ (∀ (d : Dataset) (c : String) (a b : ℚ), a > b → c ∈ d.colNames →
      expect_column_sum_to_be_between_stat d c (some a) (some b) =
        (.ok (mkAggResult false (sqlSum (d.colData c))), 1))
    ∧ (∀ (d : Dataset) (c : String) (a b : ℚ), a > b →
        d.is_numeric_column c = true → c ∈ d.colNames →
      expect_column_mean_to_be_between_stat d c (some a) (some b) =
        (.ok (mkAggResult false (sqlAvg (d.colData c))), 1))
    ∧ (∀ (d : Dataset) (a b : ℤ), a > b →
      expect_table_row_count_to_be_between d (some (.int a)) (some (.int b)) =
        (.ok { success := false, observed_value := d.element_count }, 1)) := by
  refine ⟨?_, ?_, ?_, ?_, ?_, ?_⟩
  · intro d c a b mostly rfArg h
    have hcond : expect_column_values_to_be_between_cond (some a) (some b) =
        .error (.valueError "min_value cannot be greater than max_value") := by
      simp [expect_column_values_to_be_between_cond, pyGtOpt, h]
    simp [expect_column_values_to_be_between, column_map_expectation, hcond]
  · intro d c a b h hc
    simp [expect_column_max_to_be_between_stat, hc, between_success_gt h]
  · intro d c a b h hc
    simp [expect_column_min_to_be_between_stat, hc, between_success_gt h]
  · intro d c a b h hc
    simp [expect_column_sum_to_be_between_stat, hc, between_success_gt h]
  · intro d c a b h hnum hc
    simp [expect_column_mean_to_be_between_stat, hc, hnum, between_success_gt h]
  · intro d a b h
    simp [expect_table_row_count_to_be_between, intCheckPasses, floatConv,
      row_count_between_gt h]

/-- Witness for C6 as amended: bounds `5 > 3`. -/
theorem C6_min_gt_max_witness :
    ((5 : ℚ) > 3)
    ∧ expect_column_values_to_be_between dsNulls "x" (some 5) (some 3) none
        (some rfBasic) =
      (.error (.valueError "min_value cannot be greater than max_value"), 0)
    ∧ expect_column_max_to_be_between_stat dsNulls "x" (some 5) (some 3) =
        (.ok (mkAggResult false (sqlMax (dsNulls.colData "x"))), 1) :=
  ⟨by norm_num,
   C6_min_gt_max_not_uniform.1 dsNulls "x" 5 3 none (some rfBasic) (by norm_num),
   C6_min_gt_max_not_uniform.2.1 dsNulls "x" 5 3 (by norm_num) (by decide)⟩

/-- Counterexample to C6 as stated: `expect_column_max_to_be_between` with
`min_value = 5 > max_value = 3` raises nothing: it queries the backend
twice and returns an ordinary `success = False` outcome. -/
theorem C6_counterexample :
    expect_column_max_to_be_between dsNulls "x" (some 5) (some 3) (some rfBasic) =
      (.ok (.full false
        { observed_value := some 1, element_count := 3, missing_count := some 2,
          missing_percent := some (2/3), details := none }), 2) := by
  have hstat : expect_column_max_to_be_between_stat dsNulls "x" (some 5) (some 3) =
      (.ok (mkAggResult false (some 1)), 1) := by decide
  rw [expect_column_max_to_be_between, hstat]
  norm_num [column_aggregate_expectation, mkAggResult, dsNulls, rfBasic,
    resolve_result_format, resolve_unexpected_count_limit, sqlSumCase, caseCount,
    Dataset.colData, Dataset.colNames, Dataset.element_count, rowGet, sqlIsNull,
    TV.ofBool, List.filter]
  rw [if_neg (by decide : ¬ ("BASIC" = "BOOLEAN_ONLY"))]
  rfl

/-! ## C7 -/

/-- C7 as amended: with both bounds `None`,
`expect_column_values_to_be_between` and the four bounded aggregate
expectations raise the deliberate `ValueError` before any backend call
(zero round trips); but `expect_table_row_count_to_be_between` accepts the
call, executes the count query, and then fails with an incidental
unbound-local `NameError` when no branch assigned `outcome`. -/
theorem C7_both_none_not_uniform :
    (∀ (d : Dataset) (c : String) (mostly : Option ℚ) (rfArg : Option ResultFormat),
      expect_column_values_to_be_between d c none none mostly rfArg =
        (.error (.valueError "min_value and max_value cannot both be None"), 0))
    ∧ (∀ (d : Dataset) (c : String) (rfArg : Option ResultFormat),
      expect_column_max_to_be_between d c none none rfArg =
        (.error (.valueError "min_value and max_value cannot both be None"), 0))
    ∧ (∀ (d : Dataset) (c : String) (rfArg : Option ResultFormat),
      expect_column_min_to_be_between d c none none rfArg =
        (.error (.valueError "min_value and max_value cannot both be None"), 0))
    ∧ (∀ (d : Dataset) (c : String) (rfArg : Option ResultFormat),
      expect_column_sum_to_be_between d c none none rfArg =
        (.error (.valueError "min_value and max_value cannot both be None"), 0))
    ∧ (∀ (d : Dataset) (c : String) (rfArg : Option ResultFormat),
      expect_column_mean_to_be_between d c none none rfArg =
        (.error (.valueError "min_value and max_value cannot both be None"), 0))
    ∧ (∀ d : Dataset,
      expect_table_row_count_to_be_between d none none =
        (.error (.nameError "outcome"), 1)) := by
  refine ⟨?_, ?_, ?_, ?_, ?_, ?_⟩
  · intro d c mostly rfArg
    simp [expect_column_values_to_be_between, column_map_expectation,
      expect_column_values_to_be_between_cond, pyGtOpt]
  · intro d c rfArg
    simp [expect_column_max_to_be_between, expect_column_max_to_be_between_stat,
      column_aggregate_expectation]
  · intro d c rfArg
    simp [expect_column_min_to_be_between, expect_column_min_to_be_between_stat,
      column_aggregate_expectation]
  · intro d c rfArg
    simp [expect_column_sum_to_be_between, expect_column_sum_to_be_between_stat,
      column_aggregate_expectation]
  · intro d c rfArg
    simp [expect_column_mean_to_be_between, expect_column_mean_to_be_between_stat,
      column_aggregate_expectation]
  · intro d
    simp [expect_table_row_count_to_be_between, intCheckPasses,
      row_count_between_outcome]

/-- Counterexample to C7 as stated: `expect_table_row_count_to_be_between`
with both bounds `None` does not raise a deliberate configuration error
before any backend call; it runs the count query (one round trip) and then
fails with an unbound-local `NameError`. -/
theorem C7_counterexample :
    expect_table_row_count_to_be_between dsNulls none none =
      (.error (.nameError "outcome"), 1)
    ∧ (1 : ℕ) ≠ 0 :=
  ⟨by decide, by decide⟩

/-! ## C8 -/

/-- An empty table with one column `x`. -/
def dsEmpty : Dataset :=
  { columns := [{ name := "x", numeric := true }]
    rows := []
    default_result_format := rfBasic }

/-- A well-shaped statistic result carrying a `details` block. -/
def erDetails : AggEvalResult :=
  { success := some (.bool true)
    result_obj := some { observed_value := some (some 1), details := some "info" } }

/-- The key set of a successfully formatted map outcome per verbosity. -/
lemma format_keys {rf : ResultFormat} {s : Bool} {ec nn : ℤ}
    {pl : List (Option ℚ)} {o : MapOutcome}
    (h : format_column_map_output rf s ec nn pl = .ok o) :
    (rf.result_obj_format = "BOOLEAN_ONLY" → o.allKeys = ["success"])
    ∧ ((rf.result_obj_format = "BASIC" ∨ rf.result_obj_format = "SUMMARY"
        ∨ rf.result_obj_format = "COMPLETE") →
      o.allKeys = ["success", "result_obj", "element_count", "missing_count",
        "missing_percent", "unexpected_count", "unexpected_percent",
        "partial_unexpected_list"]) := by
  unfold format_column_map_output at h
  split at h
  next hfmt =>
    injection h with h
    subst h
    refine ⟨fun _ => rfl, fun hor => ?_⟩
    rcases hor with h' | h' | h' <;> rw [hfmt] at h' <;> exact absurd h' (by decide)
  next hfmt =>
    split at h
    next hor =>
      injection h with h
      subst h
      exact ⟨fun h' => absurd h' hfmt, fun _ => rfl⟩
    next => simp at h

/-- The key set of a successful aggregate run per verbosity. -/
lemma agg_run_keys {d : Dataset} {c : String} {er : AggEvalResult} {k : ℕ}
    {rfArg : Option ResultFormat} {o : AggOutcome} {nq : ℕ}
    (hrun : column_aggregate_expectation d c (.ok er, k) rfArg = (.ok o, nq)) :
    ((resolve_result_format d rfArg).result_obj_format = "BOOLEAN_ONLY" →
      o.allKeys = ["success"])
    ∧ ((resolve_result_format d rfArg).result_obj_format = "BASIC" →
      o.allKeys = ["success", "result_obj", "observed_value", "element_count",
        "missing_count", "missing_percent"])
    ∧ ((resolve_result_format d rfArg).result_obj_format = "SUMMARY" ∨
        (resolve_result_format d rfArg).result_obj_format = "COMPLETE" →
      ∃ obj, er.result_obj = some obj ∧
        o.allKeys = ["success", "result_obj", "observed_value", "element_count",
          "missing_count", "missing_percent"] ++
          (if obj.details.isSome then ["details"] else [])) := by
  simp only [column_aggregate_expectation] at hrun
  split at hrun
  next sv obj hsv hobj =>
    split at hrun
    next ov hov =>
      split at hrun
      next hfmt =>
        rw [Prod.mk.injEq] at hrun
        injection hrun.1 with h1
        subst h1
        refine ⟨fun _ => rfl, fun h' => ?_, fun h' => ?_⟩
        · rw [hfmt] at h'
          exact absurd h' (by decide)
        · rcases h' with h' | h' <;> rw [hfmt] at h' <;> exact absurd h' (by decide)
      next hfmt =>
        split at hrun
        next hc =>
          split at hrun
          next hbasic =>
            rw [Prod.mk.injEq] at hrun
            injection hrun.1 with h1
            subst h1
            refine ⟨fun h' => absurd h' hfmt, fun _ => by simp [AggOutcome.allKeys], fun h' => ?_⟩
            · rcases h' with h' | h' <;> rw [hbasic] at h' <;> exact absurd h' (by decide)
          next hbasic =>
            split at hrun
            next hsc =>
              rw [Prod.mk.injEq] at hrun
              injection hrun.1 with h1
              subst h1
              exact ⟨fun h' => absurd h' hfmt, fun h' => absurd h' hbasic,
                fun _ => ⟨obj, hobj, rfl⟩⟩
            next hsc => simp at hrun
        next hc => simp at hrun
    next hov => simp at hrun
  next hshape => simp at hrun

/-- C8: the key set of the returned outcome is monotone in the requested
verbosity for both evaluators: at `BOOLEAN_ONLY` the outcome holds exactly
the key `success` (no `result_obj` at all); the keys at `BASIC` are a
subset of those at `SUMMARY`, which are a subset of those at `COMPLETE`. -/
theorem C8_keys_monotone (d : Dataset) (c : String) (er : AggEvalResult) (k : ℕ)
    (cond : Option ℚ → TV) (mostly : Option ℚ)
    (rfO rfB rfS rfC : ResultFormat)
    (hO : rfO.result_obj_format = "BOOLEAN_ONLY")
    (hB : rfB.result_obj_format = "BASIC")
    (hS : rfS.result_obj_format = "SUMMARY")
    (hC : rfC.result_obj_format = "COMPLETE") :
    (∀ o nq, column_aggregate_expectation d c (.ok er, k) (some rfO) = (.ok o, nq) →
      o.allKeys = ["success"])
    ∧ (∀ oB oS oC nB nS nC,
        column_aggregate_expectation d c (.ok er, k) (some rfB) = (.ok oB, nB) →
        column_aggregate_expectation d c (.ok er, k) (some rfS) = (.ok oS, nS) →
        column_aggregate_expectation d c (.ok er, k) (some rfC) = (.ok oC, nC) →
        oB.allKeys ⊆ oS.allKeys ∧ oS.allKeys ⊆ oC.allKeys)
    ∧ (∀ o nq, column_map_expectation d c (.ok cond) mostly (some rfO) = (.ok o, nq) →
      o.allKeys = ["success"])
    ∧ (∀ oB oS oC nB nS nC,
        column_map_expectation d c (.ok cond) mostly (some rfB) = (.ok oB, nB) →
        column_map_expectation d c (.ok cond) mostly (some rfS) = (.ok oS, nS) →
        column_map_expectation d c (.ok cond) mostly (some rfC) = (.ok oC, nC) →
        oB.allKeys ⊆ oS.allKeys ∧ oS.allKeys ⊆ oC.allKeys) := by
  refine ⟨?_, ?_, ?_, ?_⟩
  · intro o nq hrun
    exact (agg_run_keys hrun).1 hO
  · intro oB oS oC nB nS nC hBrun hSrun hCrun
    have kB := (agg_run_keys hBrun).2.1 hB
    obtain ⟨objS, hobjS, kS⟩ := (agg_run_keys hSrun).2.2 (Or.inl hS)
    obtain ⟨objC, hobjC, kC⟩ := (agg_run_keys hCrun).2.2 (Or.inr hC)
    have hoo : objS = objC := by
      rw [hobjS] at hobjC
      injection hobjC
    constructor
    · rw [kB, kS]
      exact List.subset_append_left _ _
    · rw [kS, kC, hoo]
      exact List.Subset.refl _
  · intro o nq hrun
    exact (format_keys (map_run_ok_cases hrun).1).1 hO
  · intro oB oS oC nB nS nC hBrun hSrun hCrun
    have kB := (format_keys (map_run_ok_cases hBrun).1).2 (Or.inl hB)
    have kS := (format_keys (map_run_ok_cases hSrun).1).2 (Or.inr (Or.inl hS))
    have kC := (format_keys (map_run_ok_cases hCrun).1).2 (Or.inr (Or.inr hC))
    rw [kB, kS, kC]
    exact ⟨fun a ha => ha, fun a ha => ha⟩

/-- Witness for C8: aggregate runs over an empty table with a `details`
block, and map runs over the three-row table; the key sets grow with the
verbosity and the `BOOLEAN_ONLY` outcomes hold only `success`. -/
theorem C8_keys_monotone_witness :
    column_aggregate_expectation dsEmpty "x" (.ok erDetails, 0) (some rfBoolOnly) =
      (.ok (.boolOnly true), 0)
    ∧ column_aggregate_expectation dsEmpty "x" (.ok erDetails, 0) (some rfBasic) =
      (.ok (.full true
        { observed_value := some 1, element_count := 0, missing_count := none,
          missing_percent := none, details := none }), 1)
    ∧ column_aggregate_expectation dsEmpty "x" (.ok erDetails, 0) (some rfSummary) =
      (.ok (.full true
        { observed_value := some 1, element_count := 0, missing_count := none,
          missing_percent := none, details := some "info" }), 1)
    ∧ column_map_expectation dsNulls "x" (.ok sqlIsNull) none (some rfBoolOnly) =
      (.ok (.boolOnly false), 2)
    ∧ (AggOutcome.boolOnly true).allKeys = ["success"]
    ∧ (AggOutcome.full true
        { observed_value := some 1, element_count := 0, missing_count := none,
          missing_percent := none, details := none }).allKeys ⊆
      (AggOutcome.full true
        { observed_value := some 1, element_count := 0, missing_count := none,
          missing_percent := none, details := some "info" }).allKeys
    ∧ (MapOutcome.boolOnly false).allKeys = ["success"] := by
  have hAO : column_aggregate_expectation dsEmpty "x" (.ok erDetails, 0)
      (some rfBoolOnly) = (.ok (.boolOnly true), 0) := by decide
  have hAB : column_aggregate_expectation dsEmpty "x" (.ok erDetails, 0)
      (some rfBasic) =
      (.ok (.full true
        { observed_value := some 1, element_count := 0, missing_count := none,
          missing_percent := none, details := none }), 1) := by decide
  have hAS : column_aggregate_expectation dsEmpty "x" (.ok erDetails, 0)
      (some rfSummary) =
      (.ok (.full true
        { observed_value := some 1, element_count := 0, missing_count := none,
          missing_percent := none, details := some "info" }), 1) := by decide
  have hAC : column_aggregate_expectation dsEmpty "x" (.ok erDetails, 0)
      (some rfComplete) =
      (.ok (.full true
        { observed_value := some 1, element_count := 0, missing_count := none,
          missing_percent := none, details := some "info" }), 1) := by decide
  have hMO : column_map_expectation dsNulls "x" (.ok sqlIsNull) none
      (some rfBoolOnly) = (.ok (.boolOnly false), 2) := by decide
  have h := C8_keys_monotone dsEmpty "x" erDetails 0 sqlIsNull none
    rfBoolOnly rfBasic rfSummary rfComplete rfl rfl rfl rfl
  have h2 := C8_keys_monotone dsNulls "x" erDetails 0 sqlIsNull none
    rfBoolOnly rfBasic rfSummary rfComplete rfl rfl rfl rfl
  refine ⟨hAO, hAB, hAS, hMO, h.1 _ _ hAO, (h.2.1 _ _ _ _ _ _ hAB hAS hAC).1,
    h2.2.2.1 _ _ hMO⟩

/-! ## C9 -/

/-- C9: the integer validation of the row-count expectations is ineffective
for non-integer numbers - `float(value).is_integer()` is computed but its
result discarded - so every float-convertible argument (including
non-integers such as `10.5`, whether number or numeric string) proceeds to
the count query and compares normally, while only a non-convertible
argument (such as `"abc"`) raises the `must an integer` error before any
query. -/
theorem C9_integer_check_discarded :
    (∀ (d : Dataset) (v : PyVal) (q : ℚ), floatConv v = some q →
      expect_table_row_count_to_equal d (some v) =
        (.ok { success := pyEqIntVal d.element_count v,
               observed_value := d.element_count }, 1))
    ∧ (∀ (d : Dataset) (v : PyVal), floatConv v = none →
      expect_table_row_count_to_equal d (some v) =
        (.error (.valueError "value must an integer"), 0))
    ∧ (∀ (d : Dataset) (v : PyVal) (q : ℚ), floatConv v = some q →
      expect_table_row_count_to_be_between d (some v) none =
        (.ok { success := pyGeIntVal d.element_count v,
               observed_value := d.element_count }, 1))
    ∧ (∀ (d : Dataset) (v : PyVal) (mx : Option PyVal), floatConv v = none →
      expect_table_row_count_to_be_between d (some v) mx =
        (.error (.valueError "min_value and max_value must be integers"), 0))
    ∧ floatConv (.float (21/2)) = some (21/2)
    ∧ (floatConv (.str "10.5")).isSome = true
    ∧ floatConv (.str "abc") = none := by
  refine ⟨?_, ?_, ?_, ?_, rfl, rfl, rfl⟩
  · intro d v q h
    simp [expect_table_row_count_to_equal, intCheckPasses, h]
  · intro d v h
    simp [expect_table_row_count_to_equal, intCheckPasses, h]
  · intro d v q h
    simp [expect_table_row_count_to_be_between, intCheckPasses, h,
      row_count_between_outcome]
  · intro d v mx h
    simp [expect_table_row_count_to_be_between, intCheckPasses, h]

/-- Witness for C9: `value = 10.5` is float-convertible, so the expectation
runs the count query and compares instead of raising. -/
theorem C9_integer_check_discarded_witness :
    floatConv (.float (21/2)) = some (21/2)
    ∧ expect_table_row_count_to_equal dsNulls (some (.float (21/2))) =
        (.ok { success := pyEqIntVal dsNulls.element_count (.float (21/2)),
               observed_value := dsNulls.element_count }, 1) :=
  ⟨rfl, C9_integer_check_discarded.1 dsNulls (.float (21/2)) (21/2) rfl⟩

/-! ## C10 -/

/-- A successful aggregate run's success field is the `bool()` coercion of
the success value the statistic function returned. -/
lemma agg_run_succ {d : Dataset} {c : String} {er : AggEvalResult} {k : ℕ}
    {rfArg : Option ResultFormat} {o : AggOutcome} {nq : ℕ}
    (hrun : column_aggregate_expectation d c (.ok er, k) rfArg = (.ok o, nq)) :
    ∃ sv, er.success = some sv ∧ o.succ = pyTruthy sv := by
  simp only [column_aggregate_expectation] at hrun
  split at hrun
  next sv obj hsv hobj =>
    split at hrun
    next ov hov =>
      split at hrun
      · rw [Prod.mk.injEq] at hrun
        injection hrun.1 with h1
        exact ⟨sv, hsv, by rw [← h1]; rfl⟩
      · split at hrun
        · split at hrun
          · rw [Prod.mk.injEq] at hrun
            injection hrun.1 with h1
            exact ⟨sv, hsv, by rw [← h1]; rfl⟩
          · split at hrun
            · rw [Prod.mk.injEq] at hrun
              injection hrun.1 with h1
              exact ⟨sv, hsv, by rw [← h1]; rfl⟩
            · simp at hrun
        · simp at hrun
    next hov => simp at hrun
  next hshape => simp at hrun

/-- C10: the aggregate wrapper coerces the statistic function's success
value with `bool()`, so the outcome's success field is the Python
truthiness of whatever value was returned - also for non-boolean values
such as `1`, `0` or a non-empty string - at every verbosity level at which
the run returns, `BOOLEAN_ONLY` included. -/
theorem C10_success_coerced (d : Dataset) (c : String) (er : AggEvalResult)
    (k : ℕ) (rfArg : Option ResultFormat) (sv : PyVal) (o : AggOutcome) (nq : ℕ)
    (hsv : er.success = some sv)
    (hrun : column_aggregate_expectation d c (.ok er, k) rfArg = (.ok o, nq)) :
    o.succ = pyTruthy sv := by
  obtain ⟨sv2, hsv2, h⟩ := agg_run_succ hrun
  rw [hsv] at hsv2
  injection hsv2 with e
  rw [h, e]

/-- Witness for C10: a statistic returning the truthy non-boolean `1` as
its success value yields the Boolean `True` at `BOOLEAN_ONLY`. -/
theorem C10_success_coerced_witness :
    ({ success := some (.int 1),
       result_obj := some { observed_value := some (some 1) } } :
        AggEvalResult).success = some (.int 1)
    ∧ column_aggregate_expectation dsNulls "x"
        (.ok { success := some (.int 1),
               result_obj := some { observed_value := some (some 1) } }, 1)
        (some rfBoolOnly) = (.ok (.boolOnly true), 1)
    ∧ (AggOutcome.boolOnly true).succ = pyTruthy (.int 1) :=
  ⟨rfl, by decide,
   C10_success_coerced dsNulls "x"
     { success := some (.int 1), result_obj := some { observed_value := some (some 1) } }
     1 (some rfBoolOnly) (.int 1) (.boolOnly true) 1 rfl (by decide)⟩

end GE
